import Mathlib

/-!
Shallow embedding of `decoder/signal.h` (feature-extraction front end:
frame splitting, spectrogram/fbank/mfcc configuration objects and the
computers built from them), together with theorems settling the claims
about it.

Conventions of the embedding:
* `Int32` fields are modelled as `ℤ` (every value appearing in the
  statements below is far below `2^31`, so wrap-around never occurs);
* `Float32` configuration fields are modelled as exact rationals `ℚ`;
  real-valued transcendental computations coerce them into `ℝ`;
* C++ signed integer division truncates toward zero and is therefore
  modelled by `Int.tdiv`; the arithmetic right shift `>> 1` on a signed
  value is floor division by two, `Int.fdiv · 2`;
* code whose definition lives in an implementation file that is not part
  of the sources at hand (only declared in `signal.h`) is modelled from
  the specification; each such definition says so in its doc comment.
-/

namespace Signal

/-- Window-type enumeration, modelled from the spec (the enum is declared
in a header that is not among the sources; spec: "window type (enum:
none/rectangular/Hamming/Hanning/…)").  Only `kNone` and `kHamm` are
referenced by `signal.h`. -/
inductive WindowType
  | kNone
  | kRect
  | kHamm
  | kHann
  deriving DecidableEq

/-- Frame configuration `FrameOpts` (signal.h:65-117). -/
structure FrameOpts where
  frame_length : ℤ
  frame_shift : ℤ
  sample_rate : ℤ
  window_type : WindowType
  preemph_coeff : ℚ
  remove_dc : Bool
  deriving DecidableEq

/-- Default-constructed `FrameOpts` (signal.h:72-80): length 400, shift 160,
rate 16000, coefficient 0.97, Hamming window, remove-DC on. -/
def FrameOpts.default : FrameOpts :=
  ⟨400, 160, 16000, WindowType.kHamm, 0.97, true⟩

/-- Validation `FrameOpts::Check` (signal.h:90-93):
`ASSERT(sample_rate && frame_length >= frame_shift)` and
`ASSERT(preemph_coeff >= 0 && preemph_coeff < 1.0)`.  The truthiness test
on `sample_rate` is exactly `sample_rate ≠ 0`. -/
def FrameOpts.Check (o : FrameOpts) : Prop :=
  (o.sample_rate ≠ 0 ∧ o.frame_shift ≤ o.frame_length) ∧
    (0 ≤ o.preemph_coeff ∧ o.preemph_coeff < 1)

instance (o : FrameOpts) : Decidable o.Check := by
  unfold FrameOpts.Check
  infer_instance

/-- Online frame splitter `FrameSplitter` (signal.h:121-186).  The counter
`prev_discard_size_` together with the cached samples
`online_use_[0 : prev_discard_size_]` is modelled as the carried list
`online_tail` (so `prev_discard_size_ = online_tail.length`); the window
buffer plays no role in the claims and is omitted. -/
structure FrameSplitter where
  frame_opts_ : FrameOpts
  online_tail : List ℚ

/-- Method `FrameSplitter::Reset` (signal.h:142) clears the carried state. -/
def FrameSplitter.Reset (sp : FrameSplitter) : FrameSplitter :=
  { sp with online_tail := [] }

/-- Constructor `FrameSplitter::FrameSplitter` (signal.h:123-131): calls
`Reset()`, so the carried state starts empty. -/
def FrameSplitter.ofOpts (o : FrameOpts) : FrameSplitter :=
  ⟨o, []⟩

/-- The only assertion reachable from the `FrameSplitter` constructor is
`frame_opts_.Check()` (signal.h:125). -/
def FrameSplitter.ctorOk (o : FrameOpts) : Prop := o.Check

instance (o : FrameOpts) : Decidable (FrameSplitter.ctorOk o) := by
  unfold FrameSplitter.ctorOk
  infer_instance

/-- Core of `FrameSplitter::NumFrames` (signal.h:150-160), with the current
value of `prev_discard_size_` passed explicitly:
`(num_samps + prev_discard_size_ - frame_length) / frame_shift + 1`,
where `/` is C++ signed division (truncation toward zero, `Int.tdiv`). -/
def FrameOpts.numFramesCore (o : FrameOpts) (prev_discard_size num_samps : ℤ) : ℤ :=
  (num_samps + prev_discard_size - o.frame_length).tdiv o.frame_shift + 1

/-- Method `FrameSplitter::NumFrames` (signal.h:150-160) on the current state. -/
def FrameSplitter.NumFrames (sp : FrameSplitter) (num_samps : ℤ) : ℤ :=
  sp.frame_opts_.numFramesCore sp.online_tail.length num_samps

/-- The warning branch of `NumFrames` (signal.h:155-158) fires exactly when
the computed value equals zero (the test is `num_frames == 0`). -/
def FrameOpts.numFramesWarns (o : FrameOpts) (prev_discard_size num_samps : ℤ) : Prop :=
  o.numFramesCore prev_discard_size num_samps = 0

instance (o : FrameOpts) (p n : ℤ) : Decidable (o.numFramesWarns p n) := by
  unfold FrameOpts.numFramesWarns
  infer_instance

/-- Return value of `FrameSplitter::Frame` (signal.h:134-140): the value of
`NumFrames(num_samps)` is returned unchanged. -/
def FrameSplitter.FrameReturn (sp : FrameSplitter) (num_samps : ℤ) : ℤ :=
  sp.NumFrames num_samps

/-- Number of destination rows written by `FrameSplitter::Frame`
(signal.h:137-138): the loop `for (t = 0; t < num_frames; t++)` calls
`FrameForIndex` (which writes one frame) once per iteration, hence
`max(num_frames, 0)` times. -/
def FrameSplitter.FrameWriteCount (sp : FrameSplitter) (num_samps : ℤ) : ℕ :=
  (sp.NumFrames num_samps).toNat

/-- Frame extraction, modelled from the spec: `FrameSplitter::FrameForIndex`
(declared signal.h:145-146; its body lives in an implementation file that is
not among the sources) "copies `frame_length` samples for the given frame
index into `dest`, correctly stitching together previously carried-over tail
samples with newly arrived samples".  Frame `t` of the stitched stream
(carried tail ++ new chunk) starts at offset `t * frame_shift`. -/
def FrameOpts.frameForIndex (o : FrameOpts) (stitched : List ℚ) (t : ℕ) : List ℚ :=
  (stitched.drop (t * o.frame_shift.toNat)).take o.frame_length.toNat

/-- One online call of `FrameSplitter::Frame` on a newly arrived chunk.  The
frame count is `NumFrames` (signal.h:150-160) on the current carried state;
the loop (signal.h:137-138) extracts one frame per index `0 ≤ t < count`.
The carried-state update is modelled from the spec ("carrying unconsumed
trailing samples across calls", performed by the implementation file that is
not among the sources): the `count * frame_shift` consumed samples are
dropped and every later sample is carried over. -/
def FrameSplitter.FrameOnline (sp : FrameSplitter) (chunk : List ℚ) :
    FrameSplitter × List (List ℚ) :=
  let stitched := sp.online_tail ++ chunk
  let n := sp.NumFrames chunk.length
  (⟨sp.frame_opts_, stitched.drop (n.toNat * sp.frame_opts_.frame_shift.toNat)⟩,
    (List.range n.toNat).map (sp.frame_opts_.frameForIndex stitched))

/-- Frames produced by two successive online calls on a fresh splitter:
the signal is split after `k` samples, the first call frames `sig.take k`,
the second call (with the carried state of the first) frames `sig.drop k`,
and the two frame lists are concatenated. -/
def FrameSplitter.twoCallFrames (o : FrameOpts) (sig : List ℚ) (k : ℕ) : List (List ℚ) :=
  ((FrameSplitter.ofOpts o).FrameOnline (sig.take k)).2 ++
    (((FrameSplitter.ofOpts o).FrameOnline (sig.take k)).1.FrameOnline (sig.drop k)).2

/-- Frames produced by a single batch call on a fresh splitter. -/
def FrameSplitter.batchFrames (o : FrameOpts) (sig : List ℚ) : List (List ℚ) :=
  ((FrameSplitter.ofOpts o).FrameOnline sig).2

/-- Spectrogram configuration `SpectrogramOpts` (signal.h:188-232). -/
structure SpectrogramOpts where
  apply_log : Bool
  apply_pow : Bool
  use_log_raw_energy : Bool
  frame_opts : FrameOpts
  deriving DecidableEq

/-- Constructor `SpectrogramOpts(Bool power = true, Bool log = true, Bool
use_energy = true)` (signal.h:202-203); the member `frame_opts` is
default-constructed. -/
def SpectrogramOpts.mk3 (power log use_energy : Bool) : SpectrogramOpts :=
  ⟨log, power, use_energy, FrameOpts.default⟩

/-- Default-constructed `SpectrogramOpts`: all three flags true. -/
def SpectrogramOpts.default : SpectrogramOpts :=
  SpectrogramOpts.mk3 true true true

/-- Constructor `SpectrogramOpts(const FrameOpts&)` (signal.h:196-200):
all three flags true, frame options copied. -/
def SpectrogramOpts.ofFrameOpts (opts : FrameOpts) : SpectrogramOpts :=
  ⟨true, true, true, opts⟩

/-- Validation `SpectrogramOpts::Check` (signal.h:211) delegates to the
frame options. -/
def SpectrogramOpts.Check (s : SpectrogramOpts) : Prop := s.frame_opts.Check

instance (s : SpectrogramOpts) : Decidable s.Check := by
  unfold SpectrogramOpts.Check
  infer_instance

/-- Padding helper, modelled from the spec: `RoundUpToNearestPowerOfTwo`
(used by `FrameSplitter::PaddingLength`, signal.h:168-170, but declared in a
header that is not among the sources) is "the smallest power of two ≥ frame
length". -/
def RoundUpToNearestPowerOfTwo (n : ℤ) : ℤ :=
  (2 : ℤ) ^ Nat.clog 2 n.toNat

/-- Spectrogram computer `SpectrogramComputer` (signal.h:235-270); the FFT
engine and the scratch buffer are outside the core and omitted. -/
structure SpectrogramComputer where
  apply_pow_ : Bool
  apply_log_ : Bool
  use_log_raw_energy_ : Bool
  padding_length_ : ℤ
  splitter : FrameSplitter

/-- Constructor `SpectrogramComputer::SpectrogramComputer` (signal.h:237-245):
copies the flags, builds the splitter and sets
`padding_length_ = splitter.PaddingLength()`. -/
def SpectrogramComputer.ofOpts (s : SpectrogramOpts) : SpectrogramComputer :=
  ⟨s.apply_pow, s.apply_log, s.use_log_raw_energy,
    RoundUpToNearestPowerOfTwo s.frame_opts.frame_length,
    FrameSplitter.ofOpts s.frame_opts⟩

/-- Constructing a `SpectrogramComputer` constructs its `FrameSplitter`
member, whose constructor runs `frame_opts_.Check()` (signal.h:241, 125);
no further assertion is reachable. -/
def SpectrogramComputer.ctorOk (s : SpectrogramOpts) : Prop :=
  FrameSplitter.ctorOk s.frame_opts

instance (s : SpectrogramOpts) : Decidable (SpectrogramComputer.ctorOk s) := by
  unfold SpectrogramComputer.ctorOk
  infer_instance

/-- Method `SpectrogramComputer::FeatureDim` (signal.h:258):
`padding_length_ / 2 + 1` with C++ division. -/
def SpectrogramComputer.FeatureDim (c : SpectrogramComputer) : ℤ :=
  c.padding_length_.tdiv 2 + 1

/-- Method `SpectrogramComputer::Reset` (signal.h:262) delegates to the
splitter. -/
def SpectrogramComputer.Reset (c : SpectrogramComputer) : SpectrogramComputer :=
  { c with splitter := c.splitter.Reset }

/-- Fbank configuration `FbankOpts` (signal.h:272-320). -/
structure FbankOpts where
  num_mel_bins : ℤ
  lower_bound : ℤ
  upper_bound : ℤ
  apply_log : Bool
  spectrogram_opts : SpectrogramOpts
  deriving DecidableEq

/-- Constructor `FbankOpts(const SpectrogramOpts&)` (signal.h:279-284):
bins 23, bounds 20 and 0, log on, and the given spectrogram options copied
verbatim (no flag of the copy is forced). -/
def FbankOpts.ofSpectrogramOpts (opts : SpectrogramOpts) : FbankOpts :=
  ⟨23, 20, 0, true, opts⟩

/-- Constructor `FbankOpts(Int32 num_bins = 23, Int32 low = 20, Int32 high
= 0, Bool power = true, Bool log = true)` (signal.h:286-293): the member
`spectrogram_opts` is default-constructed and the body then forces its
`apply_log` and `use_log_raw_energy` off; the `power` parameter is accepted
but never used by the source constructor. -/
def FbankOpts.mk5 (num_bins low high : ℤ) (_power log : Bool) : FbankOpts :=
  ⟨num_bins, low, high, log,
    { SpectrogramOpts.default with apply_log := false, use_log_raw_energy := false }⟩

/-- Default-constructed `FbankOpts`. -/
def FbankOpts.default : FbankOpts :=
  FbankOpts.mk5 23 20 0 true true

/-- Parsing path `FbankOpts::ParseConfigure` (signal.h:301-308): after the
embedded spectrogram options are parsed, their `apply_log` and
`use_log_raw_energy` are forced off (signal.h:303), then the four Fbank
fields are bound.  Parser-provided values enter here as arguments. -/
def FbankOpts.parseConfigure (parsed_spect : SpectrogramOpts)
    (num_bins low high : ℤ) (log : Bool) : FbankOpts :=
  ⟨num_bins, low, high, log,
    { parsed_spect with apply_log := false, use_log_raw_energy := false }⟩

/-- Validation `FbankOpts::Check` (signal.h:295-299). -/
def FbankOpts.Check (f : FbankOpts) : Prop :=
  f.spectrogram_opts.Check ∧ 3 ≤ f.num_mel_bins ∧ 0 ≤ f.lower_bound

instance (f : FbankOpts) : Decidable f.Check := by
  unfold FbankOpts.Check
  infer_instance

/-- Fbank computer `FbankComputer` (signal.h:323-365); the mel filter table
and scratch buffer are derived caches not needed by the claims. -/
structure FbankComputer where
  num_bins_ : ℤ
  lower_bound_ : ℤ
  upper_bound_ : ℤ
  apply_log_ : Bool
  spectrogram_computer_ : SpectrogramComputer

/-- Constructor `FbankComputer::FbankComputer` (signal.h:325-342):
`center_freq` is `sample_rate >> 1` (arithmetic shift, floor division by
two) and
`upper_bound_ = upper_bound > 0 ? upper_bound : center_freq + upper_bound`. -/
def FbankComputer.ofOpts (f : FbankOpts) : FbankComputer :=
  ⟨f.num_mel_bins, f.lower_bound,
    if 0 < f.upper_bound then f.upper_bound
    else f.spectrogram_opts.frame_opts.sample_rate.fdiv 2 + f.upper_bound,
    f.apply_log,
    SpectrogramComputer.ofOpts f.spectrogram_opts⟩

/-- Mel-filter construction success, modelled from the spec:
`ComputeMelFilters` (called at signal.h:340-341 with `lower_bound_` and the
resolved `upper_bound_`; its body lives in an implementation file not among
the sources) partitions the interval from the lower bound to the upper
bound on the mel scale into `num_mel_bins + 2` equally spaced points and
"fails if the point range is degenerate (e.g. bins collapse due to an
invalid bound/sample-rate combination)".  The mel map
`mel(f) = 2595 * log10(1 + f/700)` is strictly increasing, so the point
range is non-degenerate exactly when the lower bound lies strictly below
the resolved upper bound. -/
def ComputeMelFiltersOk (lower_bound upper_bound : ℤ) : Prop :=
  lower_bound < upper_bound

instance (a b : ℤ) : Decidable (ComputeMelFiltersOk a b) := by
  unfold ComputeMelFiltersOk
  infer_instance

/-- Failure points reachable while constructing a `FbankComputer`: the
member `spectrogram_computer_` runs the frame check (signal.h:329, 241,
125), the body runs `fbank_opts.Check()` (signal.h:331), then
`ASSERT(!spectrogram_opts.apply_log && !spectrogram_opts.use_log_raw_energy)`
(signal.h:333), and finally `ComputeMelFilters` (signal.h:340-341), which
fails on a degenerate mel range. -/
def FbankComputer.ctorOk (f : FbankOpts) : Prop :=
  SpectrogramComputer.ctorOk f.spectrogram_opts ∧ f.Check ∧
    f.spectrogram_opts.apply_log = false ∧
    f.spectrogram_opts.use_log_raw_energy = false ∧
    ComputeMelFiltersOk f.lower_bound (FbankComputer.ofOpts f).upper_bound_

instance (f : FbankOpts) : Decidable (FbankComputer.ctorOk f) := by
  unfold FbankComputer.ctorOk
  infer_instance

/-- Method `FbankComputer::FeatureDim` (signal.h:353). -/
def FbankComputer.FeatureDim (c : FbankComputer) : ℤ := c.num_bins_

/-- Method `FbankComputer::Reset` (signal.h:348) delegates inward. -/
def FbankComputer.Reset (c : FbankComputer) : FbankComputer :=
  { c with spectrogram_computer_ := c.spectrogram_computer_.Reset }

/-- Mfcc configuration `MfccOpts` (signal.h:367-408). -/
structure MfccOpts where
  fbank_opts : FbankOpts
  num_ceps : ℤ
  use_energy : Bool
  cepstral_lifter : ℚ
  deriving DecidableEq

/-- Constructor `MfccOpts(Int32 num_ceps = 13, Bool energy = true, Float32
cepstral = 22.0)` (signal.h:375-378): the member `fbank_opts` is
default-constructed and the body then forces
`fbank_opts.spectrogram_opts.apply_pow` and `fbank_opts.apply_log` on. -/
def MfccOpts.mk3 (num_ceps : ℤ) (energy : Bool) (cepstral : ℚ) : MfccOpts :=
  ⟨{ FbankOpts.default with
      apply_log := true,
      spectrogram_opts :=
        { FbankOpts.default.spectrogram_opts with apply_pow := true } },
    num_ceps, energy, cepstral⟩

/-- Default-constructed `MfccOpts`. -/
def MfccOpts.default : MfccOpts :=
  MfccOpts.mk3 13 true 22

/-- Constructor `MfccOpts(const FbankOpts)` (signal.h:380-384): the given
Fbank options are copied verbatim (no flag is forced). -/
def MfccOpts.ofFbankOpts (opts : FbankOpts) : MfccOpts :=
  ⟨opts, 13, true, 23⟩

/-- Validation `MfccOpts::Check` (signal.h:386-389). -/
def MfccOpts.Check (m : MfccOpts) : Prop :=
  m.fbank_opts.Check ∧ 1 ≤ m.num_ceps

instance (m : MfccOpts) : Decidable m.Check := by
  unfold MfccOpts.Check
  infer_instance

/-- Mfcc computer `MfccComputer` (signal.h:410-456); DCT matrix and scratch
buffers are derived caches not needed by the claims, and the lifter table is
exposed through `MfccComputer.lifterCoeff` below. -/
structure MfccComputer where
  num_ceps_ : ℤ
  use_energy_ : Bool
  cepstral_lifter_ : ℚ
  fbank_computer : FbankComputer

/-- Constructor `MfccComputer::MfccComputer` (signal.h:412-432). -/
def MfccComputer.ofOpts (m : MfccOpts) : MfccComputer :=
  ⟨m.num_ceps, m.use_energy, m.cepstral_lifter, FbankComputer.ofOpts m.fbank_opts⟩

/-- Failure points reachable while constructing a `MfccComputer`: the
member `fbank_computer` (signal.h:416) runs every Fbank constructor failure
point, the mel-filter construction included; the body then runs
`mfcc_opts.Check()` (signal.h:417) and
`ASSERT(apply_pow && fbank_opts.apply_log)` (signal.h:423-424). -/
def MfccComputer.ctorOk (m : MfccOpts) : Prop :=
  FbankComputer.ctorOk m.fbank_opts ∧ m.Check ∧
    m.fbank_opts.spectrogram_opts.apply_pow = true ∧
    m.fbank_opts.apply_log = true

instance (m : MfccOpts) : Decidable (MfccComputer.ctorOk m) := by
  unfold MfccComputer.ctorOk
  infer_instance

/-- Method `MfccComputer::FeatureDim` (signal.h:445). -/
def MfccComputer.FeatureDim (c : MfccComputer) : ℤ := c.num_ceps_

/-- Method `MfccComputer::Reset` (signal.h:440) delegates inward. -/
def MfccComputer.Reset (c : MfccComputer) : MfccComputer :=
  { c with fbank_computer := c.fbank_computer.Reset }

/-- Lifter-coefficient loop body (signal.h:420-422) under exact real
semantics: `lifter_coeffs_[i] = 0.5 * cepstral_lifter_ *
sin(PI * i / cepstral_lifter_) + 1.0`. -/
noncomputable def MfccComputer.lifterCoeff (c : MfccComputer) (i : ℕ) : ℝ :=
  0.5 * (c.cepstral_lifter_ : ℝ) * Real.sin (Real.pi * i / (c.cepstral_lifter_ : ℝ)) + 1.0

/-- Lifter-coefficient loop body (signal.h:420-422) with the fallibility of
the `Float32` evaluation made explicit: the body divides by
`cepstral_lifter_`, and when that divisor is zero the IEEE division and the
sine of its result are non-finite (±inf/NaN) and propagate to the stored
coefficient; the non-finite outcome is modelled as `none`. -/
noncomputable def MfccComputer.lifterCoeffChecked (c : MfccComputer) (i : ℕ) : Option ℝ :=
  if c.cepstral_lifter_ = 0 then none else some (c.lifterCoeff i)

end Signal

namespace Signal

/-- Helper: the default frame configuration passes `Check`. -/
theorem FrameOpts.default_Check : FrameOpts.default.Check :=
  ⟨⟨by decide, by decide⟩, by norm_num [FrameOpts.default], by norm_num [FrameOpts.default]⟩

/-- C1 counterexample: the claim that successful validation implies that no
constructor can fail is false, on two independent paths.  First, the Fbank
configuration copied from a default-constructed `SpectrogramOpts` (whose
`apply_log` and `use_log_raw_energy` are `true`) passes `FbankOpts::Check`,
yet the `FbankComputer` constructor assertion
`ASSERT(!apply_log && !use_log_raw_energy)` (signal.h:333) fires on it.
Second, a parsed configuration with lower bound 10000 Hz, upper bound 0 and
sample rate 16000 passes `Check` with both flags off, yet its mel range is
degenerate (10000 against the resolved Nyquist 8000), so the constructor's
`ComputeMelFilters` call (signal.h:340-341) fails. -/
theorem C1_counterexample :
    (FbankOpts.Check
        (FbankOpts.ofSpectrogramOpts
          (SpectrogramOpts.ofFrameOpts ⟨400, 160, 16000, WindowType.kHamm, 0, true⟩)) ∧
      ¬ FbankComputer.ctorOk
        (FbankOpts.ofSpectrogramOpts
          (SpectrogramOpts.ofFrameOpts ⟨400, 160, 16000, WindowType.kHamm, 0, true⟩))) ∧
      (FbankOpts.Check
          (FbankOpts.parseConfigure
            ⟨true, true, true, ⟨400, 160, 16000, WindowType.kHamm, 0, true⟩⟩ 23 10000 0 true) ∧
        (FbankOpts.parseConfigure
            ⟨true, true, true, ⟨400, 160, 16000, WindowType.kHamm, 0, true⟩⟩ 23 10000 0
            true).spectrogram_opts.apply_log = false ∧
        (FbankOpts.parseConfigure
            ⟨true, true, true, ⟨400, 160, 16000, WindowType.kHamm, 0, true⟩⟩ 23 10000 0
            true).spectrogram_opts.use_log_raw_energy = false ∧
        ¬ FbankComputer.ctorOk
          (FbankOpts.parseConfigure
            ⟨true, true, true, ⟨400, 160, 16000, WindowType.kHamm, 0, true⟩⟩ 23 10000 0 true)) := by
  decide

/-- C1 amended: for `FrameOpts` and `SpectrogramOpts`, `Check` succeeding
means the corresponding computer constructor cannot fail; for `FbankOpts`
the embedded spectrogram `apply_log`/`use_log_raw_energy` must additionally
be off and the mel-filter range (lower bound against the resolved upper
bound) non-degenerate, and for `MfccOpts` moreover `apply_pow` and the
Fbank `apply_log` must be on — `Check` alone guarantees neither the flag
invariants, which the constructors assert separately, nor a usable
mel-filter range. -/
theorem C1_amended :
    (∀ o : FrameOpts, o.Check → FrameSplitter.ctorOk o) ∧
      (∀ s : SpectrogramOpts, s.Check → SpectrogramComputer.ctorOk s) ∧
      (∀ f : FbankOpts, f.Check → f.spectrogram_opts.apply_log = false →
        f.spectrogram_opts.use_log_raw_energy = false →
        ComputeMelFiltersOk f.lower_bound (FbankComputer.ofOpts f).upper_bound_ →
        FbankComputer.ctorOk f) ∧
      (∀ m : MfccOpts, m.Check → m.fbank_opts.spectrogram_opts.apply_log = false →
        m.fbank_opts.spectrogram_opts.use_log_raw_energy = false →
        m.fbank_opts.spectrogram_opts.apply_pow = true →
        m.fbank_opts.apply_log = true →
        ComputeMelFiltersOk m.fbank_opts.lower_bound
          (FbankComputer.ofOpts m.fbank_opts).upper_bound_ →
        MfccComputer.ctorOk m) := by
  refine ⟨fun o h => h, fun s h => h, fun f h h1 h2 h3 => ⟨h.1, h, h1, h2, h3⟩, ?_⟩
  intro m h h1 h2 h3 h4 h5
  exact ⟨⟨h.1.1, h.1, h1, h2, h5⟩, h, h3, h4⟩

/-- C1 witness: concrete validated configurations (with the flag invariants
in place and a non-degenerate mel range) on which every constructor
succeeds. -/
theorem C1_witness :
    FrameSplitter.ctorOk (⟨400, 160, 16000, WindowType.kHamm, 0, true⟩ : FrameOpts) ∧
      SpectrogramComputer.ctorOk
        ⟨false, true, false, ⟨400, 160, 16000, WindowType.kHamm, 0, true⟩⟩ ∧
      FbankComputer.ctorOk
        ⟨23, 20, 0, true, ⟨false, true, false, ⟨400, 160, 16000, WindowType.kHamm, 0, true⟩⟩⟩ ∧
      MfccComputer.ctorOk
        ⟨⟨23, 20, 0, true, ⟨false, true, false, ⟨400, 160, 16000, WindowType.kHamm, 0, true⟩⟩⟩,
          13, true, 22⟩ :=
  ⟨C1_amended.1 _ (by decide),
    C1_amended.2.1 _ (by decide),
    C1_amended.2.2.1 _ (by decide) (by decide) (by decide) (by decide),
    C1_amended.2.2.2 _ (by decide) (by decide) (by decide) (by decide) (by decide)
      (by decide)⟩

/-- C3 counterexample: `NumFrames` does not compute the floor formula, and
the warning is not tied to "≤ 0".  With the default options (length 400,
shift 160) and no carried tail: at 399 samples the code returns 1 (C++
division truncates toward zero) while the floor formula gives 0; at 0
samples the value is negative yet the warning (testing `== 0`) stays
silent. -/
theorem C3_counterexample :
    (FrameOpts.default.numFramesCore 0 399 = 1 ∧
        (399 + 0 - FrameOpts.default.frame_length).fdiv FrameOpts.default.frame_shift + 1 = 0) ∧
      (FrameOpts.default.numFramesCore 0 0 < 0 ∧
        ¬ FrameOpts.default.numFramesWarns 0 0) := by
  decide

/-- C3 amended: `NumFrames` returns the truncated-toward-zero quotient plus
one, which coincides with the claimed floor formula whenever
`num_samps + carried_tail ≥ frame_length` (nonnegative numerator); the
warning fires exactly when the returned value equals zero (not whenever it
is ≤ 0). -/
theorem C3_amended :
    ∀ (o : FrameOpts) (prev num : ℤ), 0 < o.frame_shift →
      ((0 ≤ num + prev - o.frame_length →
          o.numFramesCore prev num =
            (num + prev - o.frame_length).fdiv o.frame_shift + 1) ∧
        (o.numFramesWarns prev num ↔ o.numFramesCore prev num = 0)) := by
  intro o prev num hS
  refine ⟨fun h => ?_, Iff.rfl⟩
  unfold FrameOpts.numFramesCore
  rw [Int.tdiv_eq_ediv h (le_of_lt hS), Int.fdiv_eq_ediv _ (le_of_lt hS)]

/-- C3 witness: the spec's own concrete scenario — 1000 samples, default
options — where the code value, the floor formula and the expected count 4
all agree. -/
theorem C3_witness :
    0 < FrameOpts.default.frame_shift ∧
      FrameOpts.default.numFramesCore 0 1000 =
        (1000 + 0 - FrameOpts.default.frame_length).fdiv FrameOpts.default.frame_shift + 1 ∧
      FrameOpts.default.numFramesCore 0 1000 = 4 :=
  ⟨by decide,
    (C3_amended FrameOpts.default 0 1000 (by decide)).1 (by decide),
    by decide⟩

/-- C4 counterexample: not every construction path forces the embedded
spectrogram flags off — the `FbankOpts(const SpectrogramOpts&)` constructor
copies them verbatim, so from a default-constructed `SpectrogramOpts` both
flags remain `true`. -/
theorem C4_counterexample :
    (FbankOpts.ofSpectrogramOpts SpectrogramOpts.default).spectrogram_opts.apply_log = true ∧
      (FbankOpts.ofSpectrogramOpts
          SpectrogramOpts.default).spectrogram_opts.use_log_raw_energy = true :=
  ⟨rfl, rfl⟩

/-- C4 amended: the value-parameter constructor and the configuration-parsing
path force the embedded spectrogram `apply_log`/`use_log_raw_energy` off,
but the constructor taking a `SpectrogramOpts` copies the embedded flags
unchanged. -/
theorem C4_amended :
    (∀ (num_bins low high : ℤ) (power log : Bool),
        (FbankOpts.mk5 num_bins low high power log).spectrogram_opts.apply_log = false ∧
          (FbankOpts.mk5 num_bins low high power log).spectrogram_opts.use_log_raw_energy
            = false) ∧
      (∀ (parsed : SpectrogramOpts) (num_bins low high : ℤ) (log : Bool),
        (FbankOpts.parseConfigure parsed num_bins low high log).spectrogram_opts.apply_log
            = false ∧
          (FbankOpts.parseConfigure parsed num_bins low high
              log).spectrogram_opts.use_log_raw_energy = false) ∧
      (∀ opts : SpectrogramOpts, (FbankOpts.ofSpectrogramOpts opts).spectrogram_opts = opts) :=
  ⟨fun _ _ _ _ _ => ⟨rfl, rfl⟩, fun _ _ _ _ _ => ⟨rfl, rfl⟩, fun _ => rfl⟩

/-- C5 counterexample: validation does not reject every claimed-invalid
range.  A negative sample rate passes `Check` (the assertion only tests
`sample_rate != 0`), and a zero frame shift passes too (only
`frame_length >= frame_shift` is tested). -/
theorem C5_counterexample :
    ((⟨400, 160, -1, WindowType.kHamm, 0, true⟩ : FrameOpts).sample_rate ≤ 0 ∧
        (⟨400, 160, -1, WindowType.kHamm, 0, true⟩ : FrameOpts).Check) ∧
      ((⟨400, 0, 16000, WindowType.kHamm, 0, true⟩ : FrameOpts).frame_shift ≤ 0 ∧
        (⟨400, 0, 16000, WindowType.kHamm, 0, true⟩ : FrameOpts).Check) := by
  decide

/-- C5 amended: the exact validation conditions.  `FrameOpts::Check` accepts
exactly nonzero (not necessarily positive) sample rate, shift ≤ length (a
non-positive shift is allowed when ≤ length) and pre-emphasis in [0, 1);
`FbankOpts::Check` additionally requires ≥ 3 mel bins and a nonnegative
lower bound; `MfccOpts::Check` additionally requires ≥ 1 cepstral
coefficient. -/
theorem C5_amended :
    (∀ o : FrameOpts, o.Check ↔
        (o.sample_rate ≠ 0 ∧ o.frame_shift ≤ o.frame_length ∧
          0 ≤ o.preemph_coeff ∧ o.preemph_coeff < 1)) ∧
      (∀ f : FbankOpts, f.Check ↔
        (f.spectrogram_opts.frame_opts.Check ∧ 3 ≤ f.num_mel_bins ∧ 0 ≤ f.lower_bound)) ∧
      (∀ m : MfccOpts, m.Check ↔ (m.fbank_opts.Check ∧ 1 ≤ m.num_ceps)) := by
  refine ⟨fun o => ?_, fun f => Iff.rfl, fun m => Iff.rfl⟩
  unfold FrameOpts.Check
  tauto

/-- C6: `FeatureDim` is a pure function of construction-time fields (the
only state transition, `Reset`, leaves it unchanged) and equals
padding length / 2 + 1 for `SpectrogramComputer`, the configured mel-bin
count for `FbankComputer` and the configured cepstral count for
`MfccComputer`. -/
theorem C6_featureDim :
    (∀ s : SpectrogramOpts,
        (SpectrogramComputer.ofOpts s).FeatureDim =
            RoundUpToNearestPowerOfTwo s.frame_opts.frame_length / 2 + 1 ∧
          (SpectrogramComputer.ofOpts s).Reset.FeatureDim =
            (SpectrogramComputer.ofOpts s).FeatureDim) ∧
      (∀ f : FbankOpts,
        (FbankComputer.ofOpts f).FeatureDim = f.num_mel_bins ∧
          (FbankComputer.ofOpts f).Reset.FeatureDim = (FbankComputer.ofOpts f).FeatureDim) ∧
      (∀ m : MfccOpts,
        (MfccComputer.ofOpts m).FeatureDim = m.num_ceps ∧
          (MfccComputer.ofOpts m).Reset.FeatureDim = (MfccComputer.ofOpts m).FeatureDim) := by
  refine ⟨fun s => ⟨?_, rfl⟩, fun f => ⟨rfl, rfl⟩, fun m => ⟨rfl, rfl⟩⟩
  have hp : (0 : ℤ) ≤ RoundUpToNearestPowerOfTwo s.frame_opts.frame_length := by
    unfold RoundUpToNearestPowerOfTwo
    positivity
  show (RoundUpToNearestPowerOfTwo s.frame_opts.frame_length).tdiv 2 + 1 = _
  rw [Int.tdiv_eq_ediv hp (by norm_num)]

/-- C7: the effective upper frequency bound resolved at `FbankComputer`
construction equals the configured bound when positive, and Nyquist
(sample rate / 2) plus the configured bound when the configured bound is
≤ 0. -/
theorem C7_upper_bound :
    ∀ f : FbankOpts,
      (f.upper_bound ≤ 0 →
          (FbankComputer.ofOpts f).upper_bound_ =
            f.spectrogram_opts.frame_opts.sample_rate / 2 + f.upper_bound) ∧
        (0 < f.upper_bound → (FbankComputer.ofOpts f).upper_bound_ = f.upper_bound) := by
  intro f
  constructor
  · intro hub
    show (if 0 < f.upper_bound then f.upper_bound
        else f.spectrogram_opts.frame_opts.sample_rate.fdiv 2 + f.upper_bound) = _
    rw [if_neg (not_lt.mpr hub), Int.fdiv_eq_ediv _ (by norm_num : (0:ℤ) ≤ 2)]
  · intro hub
    show (if 0 < f.upper_bound then f.upper_bound
        else f.spectrogram_opts.frame_opts.sample_rate.fdiv 2 + f.upper_bound) = _
    rw [if_pos hub]

/-- C7 witness: the default Fbank configuration (upper bound 0, sample rate
16000) resolves to Nyquist, 8000 Hz. -/
theorem C7_witness :
    FbankOpts.default.upper_bound ≤ 0 ∧
      (FbankComputer.ofOpts FbankOpts.default).upper_bound_ =
        FbankOpts.default.spectrogram_opts.frame_opts.sample_rate / 2 +
          FbankOpts.default.upper_bound ∧
      (FbankComputer.ofOpts FbankOpts.default).upper_bound_ = 8000 :=
  ⟨by decide, (C7_upper_bound FbankOpts.default).1 (by decide), by decide⟩

/-- C8: for a positive lifter parameter the lifter coefficient at index `i`
equals `1 + 0.5 * cepstral_lifter * sin(pi * i / cepstral_lifter)`, and the
coefficient at index 0 equals 1. -/
theorem C8_lifter_formula :
    ∀ (m : MfccOpts) (i : ℕ), 0 < m.cepstral_lifter →
      ((MfccComputer.ofOpts m).lifterCoeff i =
          1 + 0.5 * (m.cepstral_lifter : ℝ) *
            Real.sin (Real.pi * i / (m.cepstral_lifter : ℝ)) ∧
        (MfccComputer.ofOpts m).lifterCoeff 0 = 1) := by
  intro m i _hpos
  constructor
  · show 0.5 * (m.cepstral_lifter : ℝ) *
        Real.sin (Real.pi * i / (m.cepstral_lifter : ℝ)) + 1.0 = _
    ring
  · show 0.5 * (m.cepstral_lifter : ℝ) *
        Real.sin (Real.pi * ((0:ℕ):ℝ) / (m.cepstral_lifter : ℝ)) + 1.0 = 1
    norm_num

/-- C8 witness: the default lifter parameter 22 at indices 5 and 0. -/
theorem C8_witness :
    0 < (MfccOpts.mk3 13 true 22).cepstral_lifter ∧
      ((MfccComputer.ofOpts (MfccOpts.mk3 13 true 22)).lifterCoeff 5 =
          1 + 0.5 * ((MfccOpts.mk3 13 true 22).cepstral_lifter : ℝ) *
            Real.sin (Real.pi * ((5:ℕ):ℝ) /
              ((MfccOpts.mk3 13 true 22).cepstral_lifter : ℝ)) ∧
        (MfccComputer.ofOpts (MfccOpts.mk3 13 true 22)).lifterCoeff 0 = 1) :=
  ⟨by decide, C8_lifter_formula (MfccOpts.mk3 13 true 22) 5 (by decide)⟩

/-- C9: `MfccOpts::Check` is entirely independent of `cepstral_lifter`; the
configuration with `cepstral_lifter = 0` passes validation, yet the
constructor's lifter computation divides by zero at every index, producing
non-finite coefficients (modelled as `none`). -/
theorem C9_lifter_div_by_zero :
    (∀ (m : MfccOpts) (q : ℚ),
        ({ m with cepstral_lifter := q } : MfccOpts).Check ↔ m.Check) ∧
      MfccOpts.Check (MfccOpts.mk3 13 true 0) ∧
      (∀ i : ℕ,
        (MfccComputer.ofOpts (MfccOpts.mk3 13 true 0)).lifterCoeffChecked i = none) := by
  refine ⟨fun m q => Iff.rfl,
    ⟨⟨FrameOpts.default_Check, by decide, by decide⟩, by decide⟩, fun i => ?_⟩
  show (if (0:ℚ) = 0 then none
      else some ((MfccComputer.ofOpts (MfccOpts.mk3 13 true 0)).lifterCoeff i)) = none
  rw [if_pos rfl]

/-- C10 counterexample: an input shorter than one frame does not always
leave the destination untouched.  With the default options (length 400,
shift 160) and no carried tail, 399 samples are fewer than one frame's
worth, yet `NumFrames` computes 1, so `Frame`'s loop runs once and writes a
frame. -/
theorem C10_counterexample :
    (399 : ℤ) + ((FrameSplitter.ofOpts FrameOpts.default).online_tail.length : ℤ) <
        FrameOpts.default.frame_length ∧
      (FrameSplitter.ofOpts FrameOpts.default).FrameWriteCount 399 = 1 := by
  decide

/-- C10 amended: when `num_samps + carried_tail ≤ frame_length − frame_shift`
(so the truncated quotient is at most −1), `Frame` returns the non-positive
`NumFrames` value unchanged and its loop writes nothing; in the remaining
short-input window `frame_length − frame_shift < num_samps + carried_tail <
frame_length` the count is 1 and one frame is written. -/
theorem C10_amended :
    ∀ (sp : FrameSplitter) (num : ℤ), 0 < sp.frame_opts_.frame_shift →
      num + sp.online_tail.length ≤
          sp.frame_opts_.frame_length - sp.frame_opts_.frame_shift →
      (sp.FrameReturn num = sp.NumFrames num ∧ sp.NumFrames num ≤ 0 ∧
        sp.FrameWriteCount num = 0) := by
  intro sp num hS h
  have hn : sp.NumFrames num ≤ 0 := by
    unfold FrameSplitter.NumFrames FrameOpts.numFramesCore
    set S := sp.frame_opts_.frame_shift with hSdef
    set a : ℤ := num + (sp.online_tail.length : ℤ) - sp.frame_opts_.frame_length with ha
    have haS : a ≤ -S := by simp only [ha]; linarith
    have h2 : (0:ℤ) ≤ -a := by linarith
    have h3 : S / S ≤ (-a) / S := Int.ediv_le_ediv hS (by linarith)
    rw [Int.ediv_self (by linarith : S ≠ 0)] at h3
    have h4 : (-a).tdiv S = (-a) / S := Int.tdiv_eq_ediv h2 (le_of_lt hS)
    have h5 : a.tdiv S = -((-a).tdiv S) := by rw [Int.neg_tdiv, neg_neg]
    rw [h5, h4]
    linarith
  exact ⟨rfl, hn, Int.toNat_of_nonpos hn⟩

/-- C10 witness: 200 samples against the default options yield a count of 0
and no write. -/
theorem C10_witness :
    0 < (FrameSplitter.ofOpts FrameOpts.default).frame_opts_.frame_shift ∧
      (200 : ℤ) + ((FrameSplitter.ofOpts FrameOpts.default).online_tail.length : ℤ) ≤
        (FrameSplitter.ofOpts FrameOpts.default).frame_opts_.frame_length -
          (FrameSplitter.ofOpts FrameOpts.default).frame_opts_.frame_shift ∧
      ((FrameSplitter.ofOpts FrameOpts.default).FrameReturn 200 =
          (FrameSplitter.ofOpts FrameOpts.default).NumFrames 200 ∧
        (FrameSplitter.ofOpts FrameOpts.default).NumFrames 200 ≤ 0 ∧
        (FrameSplitter.ofOpts FrameOpts.default).FrameWriteCount 200 = 0) :=
  ⟨by decide, by decide, C10_amended _ 200 (by decide) (by decide)⟩

end Signal


namespace Signal

/-- Helper: both components of an online `Frame` call, written out. -/
theorem FrameSplitter.FrameOnline_eq (sp : FrameSplitter) (chunk : List ℚ) :
    sp.FrameOnline chunk =
      (⟨sp.frame_opts_,
          (sp.online_tail ++ chunk).drop
            ((sp.NumFrames chunk.length).toNat * sp.frame_opts_.frame_shift.toNat)⟩,
        (List.range (sp.NumFrames chunk.length).toNat).map
          (sp.frame_opts_.frameForIndex (sp.online_tail ++ chunk))) := rfl

/-- Helper: a fresh splitter has an empty carried tail. -/
theorem FrameSplitter.ofOpts_online_tail (o : FrameOpts) :
    (FrameSplitter.ofOpts o).online_tail = [] := rfl

/-- Helper: a fresh splitter keeps the given options. -/
theorem FrameSplitter.ofOpts_frame_opts (o : FrameOpts) :
    (FrameSplitter.ofOpts o).frame_opts_ = o := rfl

/-- C2 counterexample: the claim fails for splits whose first chunk is
shorter than one frame.  With the valid configuration (length 10, shift 8)
and the 12-sample signal 0..11 split after 3 samples, the two incremental
calls produce 2 frames in total (the truncating `NumFrames` already reports
one frame for the 3-sample first chunk) while the batch call produces 1,
and the concatenated frame lists differ from the batch frames. -/
theorem C2_counterexample :
    (⟨10, 8, 16000, WindowType.kHamm, 0, true⟩ : FrameOpts).Check ∧
      FrameSplitter.twoCallFrames ⟨10, 8, 16000, WindowType.kHamm, 0, true⟩
          [0, 1, 2, 3, 4, 5, 6, 7, 8, 9, 10, 11] 3 ≠
        FrameSplitter.batchFrames ⟨10, 8, 16000, WindowType.kHamm, 0, true⟩
          [0, 1, 2, 3, 4, 5, 6, 7, 8, 9, 10, 11] ∧
      ((FrameSplitter.twoCallFrames ⟨10, 8, 16000, WindowType.kHamm, 0, true⟩
            [0, 1, 2, 3, 4, 5, 6, 7, 8, 9, 10, 11] 3).length : ℤ) ≠
        (FrameSplitter.ofOpts ⟨10, 8, 16000, WindowType.kHamm, 0, true⟩).NumFrames
          ([0, 1, 2, 3, 4, 5, 6, 7, 8, 9, 10, 11] : List ℚ).length := by
  decide

/-- C2 amended: incremental framing over two successive calls agrees with
one batch call — same total frame count and sample-for-sample identical
frames — provided the shift is positive (part of the spec's validity
notion) and each call carries a nonnegative `NumFrames` numerator: the
first chunk holds at least `frame_length` samples, and the samples not yet
consumed after the first call again reach at least `frame_length`. -/
theorem C2_amended :
    ∀ (o : FrameOpts) (sig : List ℚ) (k : ℕ),
      0 < o.frame_shift → o.frame_shift ≤ o.frame_length →
      k ≤ sig.length → o.frame_length ≤ (k : ℤ) →
      o.frame_length + o.numFramesCore 0 k * o.frame_shift ≤ (sig.length : ℤ) →
      (FrameSplitter.twoCallFrames o sig k = FrameSplitter.batchFrames o sig ∧
        ((FrameSplitter.twoCallFrames o sig k).length : ℤ) =
          (FrameSplitter.ofOpts o).NumFrames sig.length) := by
  intro o sig k hS hLS hkN hk1 h2
  obtain ⟨S', hS'⟩ : ∃ s : ℕ, o.frame_shift = (s : ℤ) :=
    ⟨o.frame_shift.toNat, (Int.toNat_of_nonneg (le_of_lt hS)).symm⟩
  obtain ⟨L', hL'⟩ : ∃ l : ℕ, o.frame_length = (l : ℤ) :=
    ⟨o.frame_length.toNat, (Int.toNat_of_nonneg (by linarith)).symm⟩
  have hS'pos : 0 < S' := by
    rw [hS'] at hS
    exact_mod_cast hS
  have hS'L' : S' ≤ L' := by
    rw [hS', hL'] at hLS
    exact_mod_cast hLS
  have hL'k : L' ≤ k := by
    rw [hL'] at hk1
    exact_mod_cast hk1
  have hSnat : o.frame_shift.toNat = S' := by
    rw [hS']
    exact Int.toNat_ofNat S'
  have hLnat : o.frame_length.toNat = L' := by
    rw [hL']
    exact Int.toNat_ofNat L'
  have hcoreA : ∀ p q : ℕ, L' ≤ p + q →
      o.numFramesCore (q : ℤ) (p : ℤ) = (((p + q - L') / S' + 1 : ℕ) : ℤ) := by
    intro p q hpq
    unfold FrameOpts.numFramesCore
    rw [hL', hS']
    have h1 : ((p + q - L' : ℕ) : ℤ) = (p : ℤ) + (q : ℤ) - (L' : ℤ) := by
      rw [Nat.cast_sub hpq]
      push_cast
      ring
    rw [← h1, Int.tdiv_eq_ediv (Int.natCast_nonneg _) (Int.natCast_nonneg _),
      ← Int.natCast_div]
    push_cast
    ring
  have hlen1 : (sig.take k).length = k := by
    rw [List.length_take]
    exact min_eq_left hkN
  obtain ⟨m1, hm1⟩ : ∃ x, (k - L') / S' + 1 = x := ⟨_, rfl⟩
  have hdm : (k - L') / S' * S' ≤ k - L' := Nat.div_mul_le_self _ _
  have hm1S : m1 * S' = (k - L') / S' * S' + S' := by
    rw [← hm1]
    ring
  have hmk : m1 * S' ≤ k := by
    rw [hm1S]
    calc (k - L') / S' * S' + S' ≤ (k - L') + S' := Nat.add_le_add_right hdm _
      _ ≤ (k - L') + L' := Nat.add_le_add_left hS'L' _
      _ = k := Nat.sub_add_cancel hL'k
  have hn1core : o.numFramesCore 0 (k : ℤ) = (m1 : ℤ) := by
    have h := hcoreA k 0 (by rwa [Nat.add_zero])
    simpa [hm1] using h
  have hn1 : (FrameSplitter.ofOpts o).NumFrames ((sig.take k).length : ℤ) = (m1 : ℤ) := by
    unfold FrameSplitter.NumFrames
    rw [FrameSplitter.ofOpts_online_tail, FrameSplitter.ofOpts_frame_opts, hlen1]
    simp only [List.length_nil, Nat.cast_zero]
    exact hn1core
  have hst1 : ((FrameSplitter.ofOpts o).FrameOnline (sig.take k)).1 =
      (⟨o, (sig.take k).drop (m1 * S')⟩ : FrameSplitter) := by
    rw [FrameSplitter.FrameOnline_eq, FrameSplitter.ofOpts_online_tail,
      FrameSplitter.ofOpts_frame_opts, List.nil_append, hn1, Int.toNat_ofNat, hSnat]
  have hf1 : ((FrameSplitter.ofOpts o).FrameOnline (sig.take k)).2 =
      (List.range m1).map (o.frameForIndex (sig.take k)) := by
    rw [FrameSplitter.FrameOnline_eq, FrameSplitter.ofOpts_online_tail,
      FrameSplitter.ofOpts_frame_opts, List.nil_append, hn1, Int.toNat_ofNat]
  have hb1 : ∀ t ∈ List.range m1,
      o.frameForIndex (sig.take k) t = o.frameForIndex sig t := by
    intro t ht
    rw [List.mem_range, ← hm1, Nat.lt_succ_iff] at ht
    have h3 : t * S' ≤ k - L' := le_trans (Nat.mul_le_mul_right _ ht) hdm
    have h4 : t * S' + L' ≤ k := by
      have h5 := Nat.add_le_add_right h3 L'
      rwa [Nat.sub_add_cancel hL'k] at h5
    unfold FrameOpts.frameForIndex
    rw [hSnat, hLnat, List.drop_take, List.take_take,
      min_eq_left (Nat.le_sub_of_add_le (by rwa [add_comm] at h4))]
  have hLN : L' + m1 * S' ≤ sig.length := by
    rw [hn1core, hL', hS'] at h2
    exact_mod_cast h2
  have hsum : (sig.length - k) + (k - m1 * S') = sig.length - m1 * S' :=
    tsub_add_tsub_cancel hkN hmk
  have hSm' : m1 * S' ≤ sig.length - L' :=
    Nat.le_sub_of_add_le (by rwa [add_comm] at hLN)
  have hL'sub : L' ≤ sig.length - m1 * S' :=
    Nat.le_sub_of_add_le hLN
  obtain ⟨n2, hn2⟩ : ∃ x, (sig.length - m1 * S' - L') / S' + 1 = x := ⟨_, rfl⟩
  have htl : ((sig.take k).drop (m1 * S')).length = k - m1 * S' := by
    rw [List.length_drop, hlen1]
  have hd2 : (sig.drop k).length = sig.length - k := List.length_drop k sig
  have hn2v : (⟨o, (sig.take k).drop (m1 * S')⟩ : FrameSplitter).NumFrames
      ((sig.drop k).length : ℤ) = (n2 : ℤ) := by
    unfold FrameSplitter.NumFrames
    dsimp only
    rw [htl, hd2]
    have h := hcoreA (sig.length - k) (k - m1 * S') (by rw [hsum]; exact hL'sub)
    rw [hsum, hn2] at h
    exact h
  have hstitch : (sig.take k).drop (m1 * S') ++ sig.drop k = sig.drop (m1 * S') := by
    rw [List.drop_take]
    have hdk : sig.drop k = (sig.drop (m1 * S')).drop (k - m1 * S') := by
      rw [List.drop_drop, Nat.add_sub_cancel' hmk]
    rw [hdk, List.take_append_drop]
  have hb2 : ∀ u ∈ List.range n2,
      o.frameForIndex (sig.drop (m1 * S')) u = o.frameForIndex sig (m1 + u) := by
    intro u _
    unfold FrameOpts.frameForIndex
    rw [hSnat, hLnat, List.drop_drop, add_mul]
  have hf2 : ((⟨o, (sig.take k).drop (m1 * S')⟩ : FrameSplitter).FrameOnline
        (sig.drop k)).2 =
      (List.range n2).map (fun u => o.frameForIndex sig (m1 + u)) := by
    rw [FrameSplitter.FrameOnline_eq]
    dsimp only
    rw [hn2v, Int.toNat_ofNat, hstitch]
    exact List.map_congr_left hb2
  have hSm : S' * m1 ≤ sig.length - L' := by
    rwa [mul_comm] at hSm'
  have hdiv : (sig.length - L' - S' * m1) / S' = (sig.length - L') / S' - m1 :=
    Nat.sub_mul_div _ _ _ hSm
  have hrw : sig.length - m1 * S' - L' = sig.length - L' - S' * m1 := by
    rw [Nat.sub_sub, Nat.sub_sub]
    congr 1
    ring
  have hm1le : m1 ≤ (sig.length - L') / S' :=
    (Nat.le_div_iff_mul_le hS'pos).mpr hSm'
  have hcount : m1 + n2 = (sig.length - L') / S' + 1 := by
    rw [← hn2, hrw, hdiv]
    obtain ⟨dB, hdB⟩ : ∃ d, (sig.length - L') / S' = d := ⟨_, rfl⟩
    rw [hdB] at hm1le ⊢
    omega
  have hbn : (FrameSplitter.ofOpts o).NumFrames (sig.length : ℤ) =
      ((m1 + n2 : ℕ) : ℤ) := by
    unfold FrameSplitter.NumFrames
    rw [FrameSplitter.ofOpts_online_tail, FrameSplitter.ofOpts_frame_opts]
    simp only [List.length_nil, Nat.cast_zero]
    have h := hcoreA sig.length 0 (by rw [Nat.add_zero]; exact le_trans hL'k hkN)
    rw [Nat.cast_zero, Nat.add_zero] at h
    rw [h]
    exact congrArg (fun x : ℕ => (x : ℤ)) hcount.symm
  have hfB : ((FrameSplitter.ofOpts o).FrameOnline sig).2 =
      (List.range (m1 + n2)).map (o.frameForIndex sig) := by
    rw [FrameSplitter.FrameOnline_eq, FrameSplitter.ofOpts_online_tail,
      FrameSplitter.ofOpts_frame_opts, List.nil_append, hbn, Int.toNat_ofNat]
  have hmain : FrameSplitter.twoCallFrames o sig k = FrameSplitter.batchFrames o sig := by
    unfold FrameSplitter.twoCallFrames FrameSplitter.batchFrames
    rw [hf1, hst1, hf2, hfB, List.range_add, List.map_append, List.map_map,
      List.map_congr_left hb1]
    rfl
  refine ⟨hmain, ?_⟩
  rw [hmain]
  unfold FrameSplitter.batchFrames
  rw [hfB, List.length_map, List.length_range, hbn]

/-- C2 witness: frame length 4, shift 2, the 8-sample signal 0..7 split
after 4 samples — the hypotheses of the amended statement hold and the two
incremental calls reproduce the 3 batch frames exactly. -/
theorem C2_witness :
    (0 < (⟨4, 2, 100, WindowType.kNone, 0, true⟩ : FrameOpts).frame_shift ∧
        (⟨4, 2, 100, WindowType.kNone, 0, true⟩ : FrameOpts).frame_shift ≤
          (⟨4, 2, 100, WindowType.kNone, 0, true⟩ : FrameOpts).frame_length ∧
        4 ≤ ([0, 1, 2, 3, 4, 5, 6, 7] : List ℚ).length ∧
        (⟨4, 2, 100, WindowType.kNone, 0, true⟩ : FrameOpts).frame_length ≤ ((4 : ℕ) : ℤ) ∧
        (⟨4, 2, 100, WindowType.kNone, 0, true⟩ : FrameOpts).frame_length +
            (⟨4, 2, 100, WindowType.kNone, 0, true⟩ : FrameOpts).numFramesCore 0 (4 : ℕ) *
              (⟨4, 2, 100, WindowType.kNone, 0, true⟩ : FrameOpts).frame_shift ≤
          (([0, 1, 2, 3, 4, 5, 6, 7] : List ℚ).length : ℤ)) ∧
      (FrameSplitter.twoCallFrames ⟨4, 2, 100, WindowType.kNone, 0, true⟩
          [0, 1, 2, 3, 4, 5, 6, 7] 4 =
        FrameSplitter.batchFrames ⟨4, 2, 100, WindowType.kNone, 0, true⟩
          [0, 1, 2, 3, 4, 5, 6, 7] ∧
        ((FrameSplitter.twoCallFrames ⟨4, 2, 100, WindowType.kNone, 0, true⟩
            [0, 1, 2, 3, 4, 5, 6, 7] 4).length : ℤ) =
          (FrameSplitter.ofOpts ⟨4, 2, 100, WindowType.kNone, 0, true⟩).NumFrames
            ([0, 1, 2, 3, 4, 5, 6, 7] : List ℚ).length) :=
  ⟨⟨by decide, by decide, by decide, by decide, by decide⟩,
    C2_amended ⟨4, 2, 100, WindowType.kNone, 0, true⟩ ([0, 1, 2, 3, 4, 5, 6, 7] : List ℚ) 4
      (by decide) (by decide) (by decide) (by decide) (by decide)⟩

end Signal
